import Mathlib

/-!
Verification of the Geodesy distance library (Geodesy.h / Geodesy.cpp).

The three public methods `Geodesy::Haversine`, `Geodesy::SLC` and
`Geodesy::Vincenty` are embedded over the real numbers: every C++ `double`
value is read as a real, `std::sin`, `std::cos`, `std::asin`, `std::acos`,
`std::atan`, `std::atan2`, `std::sqrt` become `Real.sin`, `Real.cos`,
`Real.arcsin`, `Real.arccos`, `Real.arctan`, `atan2` (defined below) and
`Real.sqrt`, and Vincenty's bounded `do { ... } while (--iterLimit > 0)`
loop becomes structural recursion on a fuel counter equal to `iterLimit`.
-/

open Real
open scoped Classical

noncomputable section

namespace Geodesy

/-- Models `enum class Units { SI, US }` from Geodesy.h: SI selects
kilometers, US selects miles. -/
inductive Units
  | SI
  | US

/-- Earth mean radius in kilometers, constant `meanR` of Geodesy.h. -/
def meanR : ℝ := 6371.009

/-- Miles-to-kilometers conversion factor, constant `mi2km` of Geodesy.h. -/
def mi2km : ℝ := 1.609344

/-- Degrees-to-radians factor, constant `toRad = π / 180.0` of Geodesy.h. -/
def toRad : ℝ := Real.pi / 180

/-- Models the expression `(unit == Units::SI ? 1.0 : 1.0 / mi2km)` shared by
the three methods. -/
def unitFactor : Units → ℝ
  | Units.SI => 1
  | Units.US => 1 / mi2km

/-- Models `Geodesy::Haversine` (Geodesy.cpp lines 32-51). The C++ in-place
updates `a *= a` and `b *= b * std::cos(φ1) * std::cos(φ2)` are inlined into
the initializers of `a` and `b`. -/
def Haversine (lat1 lon1 lat2 lon2 : ℝ) (unit : Units) : ℝ :=
  let φ1 := lat1 * toRad
  let φ2 := lat2 * toRad
  let a := Real.sin ((φ2 - φ1) / 2) * Real.sin ((φ2 - φ1) / 2)
  let b := Real.sin (((lon2 - lon1) / 2) * toRad) *
    (Real.sin (((lon2 - lon1) / 2) * toRad) * Real.cos φ1 * Real.cos φ2)
  let ca := 2 * Real.arcsin (Real.sqrt (a + b))
  ca * meanR * unitFactor unit

/-- Models `Geodesy::SLC` (Geodesy.cpp lines 66-81); `dl` is the local
variable `Δλ = (lon1 - lon2) * toRad`. -/
def SLC (lat1 lon1 lat2 lon2 : ℝ) (unit : Units) : ℝ :=
  let φ1 := lat1 * toRad
  let φ2 := lat2 * toRad
  let dl := (lon1 - lon2) * toRad
  let ca := Real.arccos (Real.sin φ1 * Real.sin φ2 +
    Real.cos φ1 * Real.cos φ2 * Real.cos dl)
  ca * meanR * unitFactor unit

/-- WGS84 Earth equatorial radius in meters, local constant `a` of
`Geodesy::Vincenty`. -/
def a : ℝ := 6378137

/-- WGS84 flattening, local constant `f = 1.0 / 298.257223563` of
`Geodesy::Vincenty`. -/
def f : ℝ := 1 / 298.257223563

/-- WGS84 polar radius, local constant `b = a * (1.0 - f)` of
`Geodesy::Vincenty`. -/
def b : ℝ := a * (1 - f)

/-- Models `std::atan2(y, x)` from cmath on reals: the angle of the point
`(x, y)` in `(-π, π]`, with `atan2 0 0 = 0`. -/
def atan2 (y x : ℝ) : ℝ :=
  if 0 < x then Real.arctan (y / x)
  else if x < 0 then
    (if 0 ≤ y then Real.arctan (y / x) + Real.pi else Real.arctan (y / x) - Real.pi)
  else (if 0 < y then Real.pi / 2 else if y < 0 then -(Real.pi / 2) else 0)

/-- The data of `Geodesy::Vincenty` that is fixed across loop iterations:
`sinU1`, `cosU1`, `sinU2`, `cosU2` (sines and cosines of the reduced
latitudes) and `dl`, the longitude difference `Δλ = (lon2 - lon1) * toRad`. -/
structure VParams where
  sinU1 : ℝ
  cosU1 : ℝ
  sinU2 : ℝ
  cosU2 : ℝ
  dl : ℝ

/-- Loop-body local `term1 = cosU2 * sinλ` of `Geodesy::Vincenty`, as a
function of the current iterate `lam` (the C++ variable `λ`). -/
def vTerm1 (p : VParams) (lam : ℝ) : ℝ := p.cosU2 * Real.sin lam

/-- Loop-body local `term2 = cosU1 * sinU2 - sinU1 * cosU2 * cosλ`. -/
def vTerm2 (p : VParams) (lam : ℝ) : ℝ :=
  p.cosU1 * p.sinU2 - p.sinU1 * p.cosU2 * Real.cos lam

/-- Loop-body value `sinσ = sqrt(term1 * term1 + term2 * term2)`. -/
def vSinσ (p : VParams) (lam : ℝ) : ℝ :=
  Real.sqrt (vTerm1 p lam * vTerm1 p lam + vTerm2 p lam * vTerm2 p lam)

/-- Loop-body value `cosσ = sinU1 * sinU2 + cosU1 * cosU2 * cosλ`. -/
def vCosσ (p : VParams) (lam : ℝ) : ℝ :=
  p.sinU1 * p.sinU2 + p.cosU1 * p.cosU2 * Real.cos lam

/-- Loop-body value `σ = std::atan2(sinσ, cosσ)`. -/
def vσ (p : VParams) (lam : ℝ) : ℝ := atan2 (vSinσ p lam) (vCosσ p lam)

/-- Loop-body value `sinα = (cosU1 * cosU2 * sinλ) / sinσ`. -/
def vSinα (p : VParams) (lam : ℝ) : ℝ :=
  p.cosU1 * p.cosU2 * Real.sin lam / vSinσ p lam

/-- Loop-body value `cos2α = 1.0 - sin2α` where `sin2α = sinα * sinα`. -/
def vCos2α (p : VParams) (lam : ℝ) : ℝ := 1 - vSinα p lam * vSinα p lam

/-- Loop-body value
`cos2σM = (cos2α != 0.0) ? cosσ - (2.0 * sinU1 * sinU2) / cos2α : 0.0`:
the division by `cos2α` is guarded, defaulting to 0. -/
def vCos2σM (p : VParams) (lam : ℝ) : ℝ :=
  if vCos2α p lam ≠ 0 then vCosσ p lam - 2 * p.sinU1 * p.sinU2 / vCos2α p lam
  else 0

/-- Loop-body value `u2 = (cos2α * (a * a - b * b)) / (b * b)`. -/
def vu2 (p : VParams) (lam : ℝ) : ℝ := vCos2α p lam * (a * a - b * b) / (b * b)

/-- Loop-body value
`A = 1.0 + (u2 / 16384.0) * (4096.0 + u2 * (-768.0 + u2 * (320.0 - 175.0 * u2)))`. -/
def vA (p : VParams) (lam : ℝ) : ℝ :=
  1 + vu2 p lam / 16384 *
    (4096 + vu2 p lam * (-768 + vu2 p lam * (320 - 175 * vu2 p lam)))

/-- Loop-body value
`B = (u2 / 1024.0) * (256.0 + u2 * (-128.0 + u2 * (74.0 - 47.0 * u2)))`. -/
def vB (p : VParams) (lam : ℝ) : ℝ :=
  vu2 p lam / 1024 * (256 + vu2 p lam * (-128 + vu2 p lam * (74 - 47 * vu2 p lam)))

/-- Loop-body value `Δσ`; the C++ local `cos2αM2 = cos2σM * cos2σM` is
inlined. -/
def vΔσ (p : VParams) (lam : ℝ) : ℝ :=
  vB p lam * vSinσ p lam * (vCos2σM p lam + vB p lam / 4 *
    (vCosσ p lam * (-1 + 2 * (vCos2σM p lam * vCos2σM p lam)) -
      vB p lam / 6 * vCos2σM p lam * (-3 + 4 * (vSinσ p lam * vSinσ p lam)) *
        (-3 + 4 * (vCos2σM p lam * vCos2σM p lam))))

/-- Loop-body value `C = (f / 16.0) * cos2α * (4.0 + f * (4.0 - 3.0 * cos2α))`. -/
def vC (p : VParams) (lam : ℝ) : ℝ :=
  f / 16 * vCos2α p lam * (4 + f * (4 - 3 * vCos2α p lam))

/-- The updated iterate: the value assigned to `λ` at the end of the loop
body, `Δλ + (1.0 - C) * f * sinα * (σ + C * sinσ * (cos2σM + C * cosσ *
(-1.0 + 2.0 * cos2αM2)))`. -/
def vNext (p : VParams) (lam : ℝ) : ℝ :=
  p.dl + (1 - vC p lam) * f * vSinα p lam *
    (vσ p lam + vC p lam * vSinσ p lam * (vCos2σM p lam +
      vC p lam * vCosσ p lam * (-1 + 2 * (vCos2σM p lam * vCos2σM p lam))))

/-- The convergence threshold, local constant `ε = 1e-12` of
`Geodesy::Vincenty`. -/
def ε : ℝ := 1e-12

/-- The convergence check `std::fabs(λ - λPrev) < ε`, stated of the iterate
`lam` about to be updated: the new value `vNext p lam` is compared with
`lam`. -/
def vConv (p : VParams) (lam : ℝ) : Prop := |vNext p lam - lam| < ε

/-- The distance in kilometers computed after the loop,
`s = b * A * (σ - Δσ) / 1000.0`, from the iterate `lam` of the final
(breaking) loop body. -/
def vDist (p : VParams) (lam : ℝ) : ℝ :=
  b * vA p lam * (vσ p lam - vΔσ p lam) / 1000

/-- Outcome of the Vincenty iteration: a distance `s` in km on convergence,
the coincident-points early return `return 0.0`, or exhaustion of the
iteration budget (the `throw std::runtime_error` path). -/
inductive VOut
  | dist (s : ℝ)
  | coincident
  | nonconverge

/-- Models the `do { ... } while (--iterLimit > 0)` loop of
`Geodesy::Vincenty` followed by the `if (iterLimit == 0) throw` test: the
fuel argument is the current value of `iterLimit`, so the body runs at most
`fuel` times and fuel 0 means the budget is exhausted (non-convergence). -/
def vincentyLoop (p : VParams) : Nat → ℝ → VOut
  | 0, _ => VOut.nonconverge
  | n + 1, lam =>
    if vSinσ p lam = 0 then VOut.coincident
    else if vConv p lam then VOut.dist (vDist p lam)
    else vincentyLoop p n (vNext p lam)

/-- The iterates of the λ-update map: `vIter p k lam` is the value the C++
variable `λ` holds at the start of loop body number `k` (0-based) when no
early exit has occurred, starting from `lam`. -/
def vIter (p : VParams) : Nat → ℝ → ℝ
  | 0, lam => lam
  | n + 1, lam => vIter p n (vNext p lam)

/-- The number of loop-body executions of `vincentyLoop p fuel lam`. -/
def vSteps (p : VParams) : Nat → ℝ → Nat
  | 0, _ => 0
  | n + 1, lam =>
    if vSinσ p lam = 0 then 1
    else if vConv p lam then 1
    else 1 + vSteps p n (vNext p lam)

/-- The `VParams` built by the prologue of `Geodesy::Vincenty`:
`U1 = atan((1 - f) * tan(φ1))`, `U2 = atan((1 - f) * tan(φ2))`, with
`φ1 = lat1 * toRad`, `φ2 = lat2 * toRad`, `Δλ = (lon2 - lon1) * toRad`. -/
def vParamsOf (lat1 lon1 lat2 lon2 : ℝ) : VParams :=
  ⟨Real.sin (Real.arctan ((1 - f) * Real.tan (lat1 * toRad))),
   Real.cos (Real.arctan ((1 - f) * Real.tan (lat1 * toRad))),
   Real.sin (Real.arctan ((1 - f) * Real.tan (lat2 * toRad))),
   Real.cos (Real.arctan ((1 - f) * Real.tan (lat2 * toRad))),
   (lon2 - lon1) * toRad⟩

/-- Models `Geodesy::Vincenty` (Geodesy.cpp lines 113-180): run the
iteration from `λ = Δλ` with `iterLimit = 100`; on convergence scale the
kilometer distance by the unit factor, on the coincident-points early
return yield `0.0` (either unit), and on non-convergence yield the sentinel
`-1` (the thrown `runtime_error` is caught by `catch (...)`). -/
def Vincenty (lat1 lon1 lat2 lon2 : ℝ) (unit : Units) : ℝ :=
  match vincentyLoop (vParamsOf lat1 lon1 lat2 lon2) 100 ((lon2 - lon1) * toRad) with
  | VOut.dist s => s * unitFactor unit
  | VOut.coincident => 0
  | VOut.nonconverge => -1

/-! ### Haversine as the spec writes it (refinement target for C3) -/

/-- The Haversine distance exactly as the specification states it:
`2·asin(√(sin²(Δφ/2) + cos(φ1)·cos(φ2)·sin²(Δλ/2))) · 6371.009`, with the
latitudes and the longitude difference converted to radians, multiplied by
`1/1.609344` when the unit is US. -/
def HaversineSpec (lat1 lon1 lat2 lon2 : ℝ) (unit : Units) : ℝ :=
  let φ1 := lat1 * toRad
  let φ2 := lat2 * toRad
  let dl := (lon2 - lon1) * toRad
  let c := 2 * Real.arcsin (Real.sqrt (Real.sin ((φ2 - φ1) / 2) ^ 2 +
    Real.cos φ1 * Real.cos φ2 * Real.sin (dl / 2) ^ 2)) * 6371.009
  match unit with
  | Units.SI => c
  | Units.US => c * (1 / 1.609344)

/-- C3: for every pair of coordinates (in degrees) and unit, `Haversine`
returns `2·asin(√(sin²(Δφ/2) + cos(φ1)·cos(φ2)·sin²(Δλ/2))) · 6371.009`
kilometers, where `φ1`, `φ2`, `Δλ` are the inputs converted to radians,
additionally multiplied by `1/1.609344` when the unit is US. -/
theorem Haversine_eq_spec (lat1 lon1 lat2 lon2 : ℝ) (u : Units) :
    Haversine lat1 lon1 lat2 lon2 u = HaversineSpec lat1 lon1 lat2 lon2 u := by
  have hrad : Real.sin ((lat2 * toRad - lat1 * toRad) / 2) *
      Real.sin ((lat2 * toRad - lat1 * toRad) / 2) +
      Real.sin (((lon2 - lon1) / 2) * toRad) *
        (Real.sin (((lon2 - lon1) / 2) * toRad) * Real.cos (lat1 * toRad) *
          Real.cos (lat2 * toRad)) =
      Real.sin ((lat2 * toRad - lat1 * toRad) / 2) ^ 2 +
      Real.cos (lat1 * toRad) * Real.cos (lat2 * toRad) *
        Real.sin ((lon2 - lon1) * toRad / 2) ^ 2 := by
    rw [show ((lon2 - lon1) / 2) * toRad = (lon2 - lon1) * toRad / 2 by ring]
    ring
  cases u
  · simp only [Haversine, HaversineSpec, unitFactor, meanR, mi2km]
    rw [hrad]
    ring
  · simp only [Haversine, HaversineSpec, unitFactor, meanR, mi2km]
    rw [hrad]

/-! ### Coincident points (C9) -/

/-- C9: for every point P (any latitude and longitude) and every unit, each
of the three algorithms returns exactly 0 when both input points are P. -/
theorem coincident_point_distance_zero (lat lon : ℝ) (u : Units) :
    Haversine lat lon lat lon u = 0 ∧ SLC lat lon lat lon u = 0 ∧
    Vincenty lat lon lat lon u = 0 := by
  refine ⟨?_, ?_, ?_⟩
  · simp [Haversine]
  · have hsc := Real.sin_sq_add_cos_sq (lat * toRad)
    simp [SLC]
    refine Or.inl (Or.inl ?_)
    nlinarith [hsc]
  · have h0 : (lon - lon) * toRad = 0 := by ring
    have hσ : vSinσ (vParamsOf lat lon lat lon) 0 = 0 := by
      simp [vSinσ, vTerm1, vTerm2, vParamsOf, mul_comm]
    rw [Vincenty, h0, show (100 : Nat) = 99 + 1 from rfl, vincentyLoop, if_pos hσ]

/-! ### Haversine and SLC agree exactly (C7) -/

/-- The spherical-law-of-cosines central-angle argument lies in `[-1, 1]`
for arbitrary real angles. -/
lemma abs_sphere_cos_le_one (x y d : ℝ) :
    |Real.sin x * Real.sin y + Real.cos x * Real.cos y * Real.cos d| ≤ 1 := by
  have hx := Real.sin_sq_add_cos_sq x
  have hy := Real.sin_sq_add_cos_sq y
  have hd := Real.neg_one_le_cos d
  have hd' := Real.cos_le_one d
  rw [abs_le]
  constructor <;>
    nlinarith [sq_nonneg (Real.sin x - Real.sin y), sq_nonneg (Real.sin x + Real.sin y),
      sq_nonneg (Real.cos x - Real.cos y), sq_nonneg (Real.cos x + Real.cos y),
      sq_nonneg (Real.cos x * Real.cos y)]

/-- Half-angle identity linking the two central-angle formulas:
`arccos x = 2 · arcsin √((1 - x) / 2)` on `[-1, 1]`. -/
lemma arccos_eq_two_arcsin_sqrt {x : ℝ} (h1 : -1 ≤ x) (h2 : x ≤ 1) :
    Real.arccos x = 2 * Real.arcsin (Real.sqrt ((1 - x) / 2)) := by
  have h0 : 0 ≤ Real.arccos x := Real.arccos_nonneg x
  have hπ : Real.arccos x ≤ Real.pi := Real.arccos_le_pi x
  have hs : Real.sin (Real.arccos x / 2) ^ 2 = (1 - x) / 2 := by
    rw [Real.sin_sq_eq_half_sub, show 2 * (Real.arccos x / 2) = Real.arccos x by ring,
      Real.cos_arccos h1 h2]
    ring
  have hsin : 0 ≤ Real.sin (Real.arccos x / 2) :=
    Real.sin_nonneg_of_nonneg_of_le_pi (by linarith) (by linarith [Real.pi_pos])
  rw [← hs, Real.sqrt_sq hsin,
    Real.arcsin_sin (by linarith [Real.pi_pos]) (by linarith)]
  ring

/-- The haversine combination equals `(1 - cos c) / 2` where `cos c` is the
spherical-law-of-cosines argument; pure trigonometric identity. -/
lemma hav_radicand (x y d : ℝ) :
    Real.sin ((y - x) / 2) ^ 2 + Real.cos x * Real.cos y * Real.sin (d / 2) ^ 2 =
    (1 - (Real.sin x * Real.sin y + Real.cos x * Real.cos y * Real.cos d)) / 2 := by
  rw [Real.sin_sq_eq_half_sub ((y - x) / 2), Real.sin_sq_eq_half_sub (d / 2),
    show 2 * ((y - x) / 2) = y - x by ring, show 2 * (d / 2) = d by ring,
    Real.cos_sub]
  ring

/-- C7: for every pair of input coordinates and every unit, `Haversine` and
`SLC` produce exactly the same result in exact real arithmetic: both reduce
to the same spherical central angle scaled by the same mean radius
6371.009 (so they certainly agree within any relative tolerance). -/
theorem Haversine_eq_SLC (lat1 lon1 lat2 lon2 : ℝ) (u : Units) :
    Haversine lat1 lon1 lat2 lon2 u = SLC lat1 lon1 lat2 lon2 u := by
  have habs := abs_sphere_cos_le_one (lat1 * toRad) (lat2 * toRad) ((lon2 - lon1) * toRad)
  have h1 := (abs_le.mp habs).1
  have h2 := (abs_le.mp habs).2
  have hrad : Real.sin ((lat2 * toRad - lat1 * toRad) / 2) *
      Real.sin ((lat2 * toRad - lat1 * toRad) / 2) +
      Real.sin (((lon2 - lon1) / 2) * toRad) *
        (Real.sin (((lon2 - lon1) / 2) * toRad) * Real.cos (lat1 * toRad) *
          Real.cos (lat2 * toRad)) =
      (1 - (Real.sin (lat1 * toRad) * Real.sin (lat2 * toRad) +
        Real.cos (lat1 * toRad) * Real.cos (lat2 * toRad) *
          Real.cos ((lon2 - lon1) * toRad))) / 2 := by
    have hh := hav_radicand (lat1 * toRad) (lat2 * toRad) ((lon2 - lon1) * toRad)
    rw [show ((lon2 - lon1) / 2) * toRad = (lon2 - lon1) * toRad / 2 by ring]
    linear_combination hh
  simp only [Haversine, SLC]
  rw [show (lon1 - lon2) * toRad = -((lon2 - lon1) * toRad) by ring, Real.cos_neg,
    hrad, arccos_eq_two_arcsin_sqrt h1 h2]

/-! ### Longitude translation invariance (C10) -/

/-- C10: each of the three algorithms depends on the two longitudes only
through their difference, so shifting both longitudes by the same amount
leaves every result unchanged. -/
theorem longitude_shift_invariant (lat1 lon1 lat2 lon2 d : ℝ) (u : Units) :
    Haversine lat1 (lon1 + d) lat2 (lon2 + d) u = Haversine lat1 lon1 lat2 lon2 u ∧
    SLC lat1 (lon1 + d) lat2 (lon2 + d) u = SLC lat1 lon1 lat2 lon2 u ∧
    Vincenty lat1 (lon1 + d) lat2 (lon2 + d) u = Vincenty lat1 lon1 lat2 lon2 u := by
  have h2 : lon2 + d - (lon1 + d) = lon2 - lon1 := by ring
  have h1 : lon1 + d - (lon2 + d) = lon1 - lon2 := by ring
  refine ⟨?_, ?_, ?_⟩
  · simp only [Haversine, h2]
  · simp only [SLC, h1]
  · simp only [Vincenty, vParamsOf, h2]

/-! ### Generic facts about the Vincenty iteration -/

/-- Value of `std::atan2` on the positive imaginary axis. -/
lemma atan2_one_zero : atan2 1 0 = Real.pi / 2 := by
  simp [atan2]

/-- The loop body runs at most `fuel` times. -/
lemma vSteps_le (p : VParams) : ∀ (n : Nat) (lam : ℝ), vSteps p n lam ≤ n := by
  intro n
  induction n with
  | zero => intro lam; simp [vSteps]
  | succ n ih =>
    intro lam
    simp only [vSteps]
    split_ifs
    · omega
    · omega
    · have := ih (vNext p lam)
      omega

/-- If no iterate among the first `n` triggers the coincident-points early
return or the convergence check, the loop exhausts its fuel and signals
non-convergence. -/
lemma vincentyLoop_nonconv (p : VParams) : ∀ (n : Nat) (lam : ℝ),
    (∀ k < n, vSinσ p (vIter p k lam) ≠ 0 ∧ ¬vConv p (vIter p k lam)) →
    vincentyLoop p n lam = VOut.nonconverge := by
  intro n
  induction n with
  | zero => intro lam _; rfl
  | succ n ih =>
    intro lam h
    have h0 := h 0 (Nat.succ_pos n)
    simp only [vIter] at h0
    simp only [vincentyLoop, if_neg h0.1, if_neg h0.2]
    apply ih
    intro k hk
    have hk1 := h (k + 1) (Nat.succ_lt_succ hk)
    simpa only [vIter] using hk1

/-- If the convergence check is met at iterate `k` with fuel remaining, and
no earlier iterate exits, the loop stops there and yields the distance
computed from that iterate. -/
lemma vincentyLoop_conv (p : VParams) : ∀ (n k : Nat) (lam : ℝ), k < n →
    (∀ j < k, vSinσ p (vIter p j lam) ≠ 0 ∧ ¬vConv p (vIter p j lam)) →
    vSinσ p (vIter p k lam) ≠ 0 → vConv p (vIter p k lam) →
    vincentyLoop p n lam = VOut.dist (vDist p (vIter p k lam)) := by
  intro n
  induction n with
  | zero => intro k lam hk; omega
  | succ n ih =>
    intro k lam hk hprev hσ hcv
    cases k with
    | zero =>
      simp only [vIter] at hσ hcv
      simp only [vincentyLoop, if_neg hσ, if_pos hcv, vIter]
    | succ k =>
      have h0 := hprev 0 (Nat.succ_pos k)
      simp only [vIter] at h0
      simp only [vincentyLoop, if_neg h0.1, if_neg h0.2, vIter]
      exact ih k (vNext p lam) (Nat.lt_of_succ_lt_succ hk)
        (fun j hj => by simpa only [vIter] using hprev (j + 1) (Nat.succ_lt_succ hj))
        (by simpa only [vIter] using hσ) (by simpa only [vIter] using hcv)

/-! ### Concrete evaluation helpers: the family of parameter records
`⟨0, 1, 0, 1, d⟩` (both reduced latitudes on the equator) at iterate π/2 -/

/-- At these parameters the loop body computes `sinσ = 1`. -/
lemma eqt_sinσ (d : ℝ) : vSinσ ⟨0, 1, 0, 1, d⟩ (Real.pi / 2) = 1 := by
  simp [vSinσ, vTerm1, vTerm2]

/-- At these parameters the loop body computes `cosσ = 0`. -/
lemma eqt_cosσ (d : ℝ) : vCosσ ⟨0, 1, 0, 1, d⟩ (Real.pi / 2) = 0 := by
  simp [vCosσ]

/-- At these parameters the loop body computes `σ = π/2`. -/
lemma eqt_σ (d : ℝ) : vσ ⟨0, 1, 0, 1, d⟩ (Real.pi / 2) = Real.pi / 2 := by
  rw [vσ, eqt_sinσ, eqt_cosσ, atan2_one_zero]

/-- At these parameters the loop body computes `sinα = 1`. -/
lemma eqt_sinα (d : ℝ) : vSinα ⟨0, 1, 0, 1, d⟩ (Real.pi / 2) = 1 := by
  simp [vSinα, eqt_sinσ]

/-- At these parameters the loop body computes `cos2α = 0` (an
equatorial-direction geodesic). -/
lemma eqt_cos2α (d : ℝ) : vCos2α ⟨0, 1, 0, 1, d⟩ (Real.pi / 2) = 0 := by
  simp [vCos2α, eqt_sinα]

/-- At these parameters the guarded midpoint term defaults to 0. -/
lemma eqt_cos2σM (d : ℝ) : vCos2σM ⟨0, 1, 0, 1, d⟩ (Real.pi / 2) = 0 := by
  simp [vCos2σM, eqt_cos2α]

/-- At these parameters `u2 = 0`, hence `A = 1`, `B = 0`, `Δσ = 0`, `C = 0`. -/
lemma eqt_u2 (d : ℝ) : vu2 ⟨0, 1, 0, 1, d⟩ (Real.pi / 2) = 0 := by
  simp [vu2, eqt_cos2α]

lemma eqt_A (d : ℝ) : vA ⟨0, 1, 0, 1, d⟩ (Real.pi / 2) = 1 := by
  simp [vA, eqt_u2]

lemma eqt_Δσ (d : ℝ) : vΔσ ⟨0, 1, 0, 1, d⟩ (Real.pi / 2) = 0 := by
  simp [vΔσ, vB, eqt_u2]

lemma eqt_C (d : ℝ) : vC ⟨0, 1, 0, 1, d⟩ (Real.pi / 2) = 0 := by
  simp [vC, eqt_cos2α]

/-- At these parameters the updated iterate is `Δλ + f·(π/2)`. -/
lemma eqt_next (d : ℝ) :
    vNext ⟨0, 1, 0, 1, d⟩ (Real.pi / 2) = d + f * (Real.pi / 2) := by
  rw [vNext, eqt_C, eqt_sinα, eqt_σ, eqt_sinσ, eqt_cos2σM, eqt_cosσ]
  ring

/-! ### Bounded iteration (C5) -/

/-- C5: for every input, Vincenty terminates: starting from `λ = Δλ` with
the fuel 100 used by `Geodesy::Vincenty`, the iteration executes at most
100 loop bodies before converging, returning early, or signalling
non-convergence. -/
theorem vincenty_iteration_bounded (lat1 lon1 lat2 lon2 : ℝ) :
    vSteps (vParamsOf lat1 lon1 lat2 lon2) 100 ((lon2 - lon1) * toRad) ≤ 100 :=
  vSteps_le (vParamsOf lat1 lon1 lat2 lon2) 100 ((lon2 - lon1) * toRad)

/-! ### Division-by-zero guard (C6) -/

/-- C6: in every Vincenty iteration, when `cos²α = 0` the guarded midpoint
term `cos2σM` is set to the default 0 instead of performing the division
by `cos²α`. -/
theorem vincenty_cos2α_zero_guard (p : VParams) (lam : ℝ)
    (h : vCos2α p lam = 0) : vCos2σM p lam = 0 := by
  simp [vCos2σM, h]

/-- Witness for C6 at the concrete degenerate parameters `⟨0, 1, 0, 1, 0⟩`
and iterate π/2, where `cos²α` evaluates to exactly 0. -/
theorem vincenty_cos2α_zero_guard_witness :
    vCos2α ⟨0, 1, 0, 1, 0⟩ (Real.pi / 2) = 0 ∧
    vCos2σM ⟨0, 1, 0, 1, 0⟩ (Real.pi / 2) = 0 :=
  ⟨eqt_cos2α 0, vincenty_cos2α_zero_guard ⟨0, 1, 0, 1, 0⟩ (Real.pi / 2) (eqt_cos2α 0)⟩

/-! ### Convergence contract (C2) -/

/-- C2: with the budget of 100 iterations of `Geodesy::Vincenty`, (i) if no
iteration returns early and the convergence check `|λ - λPrev| < 1e-12` is
never met, the loop exhausts its fuel and the call returns the sentinel -1;
(ii) conversely, if the check is met at some iterate within the budget (no
earlier exit), the iteration stops there and the loop yields the distance
computed from that iterate, which the call returns scaled by the unit
factor rather than the sentinel branch. -/
theorem vincenty_convergence_contract :
    (∀ (p : VParams) (lam : ℝ),
      (∀ k < 100, vSinσ p (vIter p k lam) ≠ 0 ∧ ¬vConv p (vIter p k lam)) →
      vincentyLoop p 100 lam = VOut.nonconverge) ∧
    (∀ (p : VParams) (lam : ℝ) (k : Nat), k < 100 →
      (∀ j < k, vSinσ p (vIter p j lam) ≠ 0 ∧ ¬vConv p (vIter p j lam)) →
      vSinσ p (vIter p k lam) ≠ 0 → vConv p (vIter p k lam) →
      vincentyLoop p 100 lam = VOut.dist (vDist p (vIter p k lam))) ∧
    (∀ (lat1 lon1 lat2 lon2 : ℝ) (u : Units),
      vincentyLoop (vParamsOf lat1 lon1 lat2 lon2) 100 ((lon2 - lon1) * toRad) =
        VOut.nonconverge → Vincenty lat1 lon1 lat2 lon2 u = -1) ∧
    (∀ (lat1 lon1 lat2 lon2 : ℝ) (u : Units) (s : ℝ),
      vincentyLoop (vParamsOf lat1 lon1 lat2 lon2) 100 ((lon2 - lon1) * toRad) =
        VOut.dist s → Vincenty lat1 lon1 lat2 lon2 u = s * unitFactor u) := by
  refine ⟨fun p lam h => vincentyLoop_nonconv p 100 lam h,
    fun p lam k hk hprev hσ hcv => vincentyLoop_conv p 100 k lam hk hprev hσ hcv,
    fun lat1 lon1 lat2 lon2 u h => ?_, fun lat1 lon1 lat2 lon2 u s h => ?_⟩
  · rw [Vincenty, h]
  · rw [Vincenty, h]

/-- Witness for C2 at concrete parameters `⟨0, 1, 0, 1, (1 - f)·(π/2)⟩` and
iterate π/2: the convergence check is met on the very first iteration
(`vNext` maps π/2 to itself), so the loop yields the computed distance. -/
theorem vincenty_convergence_contract_witness :
    vincentyLoop ⟨0, 1, 0, 1, (1 - f) * (Real.pi / 2)⟩ 100 (Real.pi / 2) =
      VOut.dist (vDist ⟨0, 1, 0, 1, (1 - f) * (Real.pi / 2)⟩ (Real.pi / 2)) := by
  have hσ : vSinσ ⟨0, 1, 0, 1, (1 - f) * (Real.pi / 2)⟩ (Real.pi / 2) ≠ 0 := by
    rw [eqt_sinσ]; norm_num
  have hnext : vNext ⟨0, 1, 0, 1, (1 - f) * (Real.pi / 2)⟩ (Real.pi / 2) = Real.pi / 2 := by
    rw [eqt_next]; ring
  have hcv : vConv ⟨0, 1, 0, 1, (1 - f) * (Real.pi / 2)⟩ (Real.pi / 2) := by
    rw [vConv, hnext, sub_self, abs_zero, ε]; norm_num
  exact vincenty_convergence_contract.2.1 ⟨0, 1, 0, 1, (1 - f) * (Real.pi / 2)⟩
    (Real.pi / 2) 0 (by norm_num)
    (fun j hj => absurd hj (Nat.not_lt_zero j))
    (by simpa only [vIter] using hσ) (by simpa only [vIter] using hcv)

/-! ### The sinσ = 0 short-circuit (C4) -/

/-- C4 as stated is false on the code: at the equatorial antipodal input
(0, 0) and (0, 180), the first loop body of `Geodesy::Vincenty` computes
`sinσ` exactly 0 in exact arithmetic although the two input points are not
coincident, and the call short-circuits to distance 0 in either unit. -/
theorem vincenty_sinσ_zero_not_coincident :
    vSinσ (vParamsOf 0 0 0 180) ((180 - 0 : ℝ) * toRad) = 0 ∧
    ((0 : ℝ), (0 : ℝ)) ≠ ((0 : ℝ), (180 : ℝ)) ∧
    Vincenty 0 0 0 180 Units.SI = 0 ∧ Vincenty 0 0 0 180 Units.US = 0 := by
  have hpi : ((180 - 0 : ℝ)) * toRad = Real.pi := by rw [toRad]; ring
  have hσ : vSinσ (vParamsOf 0 0 0 180) ((180 - 0 : ℝ) * toRad) = 0 := by
    rw [hpi]
    simp [vSinσ, vTerm1, vTerm2, vParamsOf, Real.tan_zero]
  refine ⟨hσ, by norm_num [Prod.ext_iff], ?_, ?_⟩ <;>
    rw [Vincenty, show (100 : Nat) = 99 + 1 from rfl, vincentyLoop, if_pos hσ]

/-- C4 (amended): whenever some loop body of the Vincenty iteration
computes `sinσ` exactly 0, the function returns distance 0 immediately,
short-circuiting the rest of the computation, with the value 0 in either
unit; the code labels this the coincident-points case, but in exact
arithmetic it also fires for non-coincident (equatorial antipodal)
inputs. -/
theorem vincenty_sinσ_zero_returns_zero :
    (∀ (p : VParams) (n : Nat) (lam : ℝ), vSinσ p lam = 0 →
      vincentyLoop p (n + 1) lam = VOut.coincident) ∧
    (∀ (lat1 lon1 lat2 lon2 : ℝ) (u : Units),
      vincentyLoop (vParamsOf lat1 lon1 lat2 lon2) 100 ((lon2 - lon1) * toRad) =
        VOut.coincident → Vincenty lat1 lon1 lat2 lon2 u = 0) := by
  refine ⟨fun p n lam h => ?_, fun lat1 lon1 lat2 lon2 u h => ?_⟩
  · rw [vincentyLoop, if_pos h]
  · rw [Vincenty, h]

/-- Witness for the amended C4 at the coincident input (0, 0) in both
conjuncts: `sinσ` evaluates to exactly 0 on the first iteration and the
call returns 0 in the US unit. -/
theorem vincenty_sinσ_zero_returns_zero_witness :
    vincentyLoop (vParamsOf 0 0 0 0) 100 ((0 - 0 : ℝ) * toRad) = VOut.coincident ∧
    Vincenty 0 0 0 0 Units.US = 0 := by
  have hσ : vSinσ (vParamsOf 0 0 0 0) ((0 - 0 : ℝ) * toRad) = 0 := by
    simp [vSinσ, vTerm1, vTerm2, vParamsOf, Real.tan_zero]
  have hloop : vincentyLoop (vParamsOf 0 0 0 0) 100 ((0 - 0 : ℝ) * toRad) =
      VOut.coincident :=
    vincenty_sinσ_zero_returns_zero.1 (vParamsOf 0 0 0 0) 99 ((0 - 0 : ℝ) * toRad) hσ
  exact ⟨hloop, vincenty_sinσ_zero_returns_zero.2 0 0 0 0 Units.US hloop⟩

/-! ### Symmetry (C8): swapping the two points negates the iterate -/

/-- Swapping the two points of `Geodesy::Vincenty` exchanges the reduced
latitudes and negates the longitude difference. -/
def vSwap (p : VParams) : VParams := ⟨p.sinU2, p.cosU2, p.sinU1, p.cosU1, -p.dl⟩

/-- Swapping points and negating the iterate preserves `sinσ`; uses that
`(sinUi, cosUi)` lie on the unit circle. -/
lemma vSinσ_swap (p : VParams) (hp1 : p.sinU1 ^ 2 + p.cosU1 ^ 2 = 1)
    (hp2 : p.sinU2 ^ 2 + p.cosU2 ^ 2 = 1) (lam : ℝ) :
    vSinσ (vSwap p) (-lam) = vSinσ p lam := by
  have hl := Real.sin_sq_add_cos_sq lam
  simp only [vSinσ, vTerm1, vTerm2, vSwap, Real.sin_neg, Real.cos_neg]
  congr 1
  linear_combination (Real.sin lam ^ 2 * p.cosU2 ^ 2) * hp1 -
    (Real.sin lam ^ 2 * p.cosU1 ^ 2) * hp2 -
    (p.cosU2 ^ 2 * p.sinU1 ^ 2 - p.cosU1 ^ 2 * p.sinU2 ^ 2) * hl

/-- Swapping points and negating the iterate preserves `cosσ`. -/
lemma vCosσ_swap (p : VParams) (lam : ℝ) :
    vCosσ (vSwap p) (-lam) = vCosσ p lam := by
  simp only [vCosσ, vSwap, Real.cos_neg]
  ring

/-- Swapping points and negating the iterate preserves `σ`. -/
lemma vσ_swap (p : VParams) (hp1 : p.sinU1 ^ 2 + p.cosU1 ^ 2 = 1)
    (hp2 : p.sinU2 ^ 2 + p.cosU2 ^ 2 = 1) (lam : ℝ) :
    vσ (vSwap p) (-lam) = vσ p lam := by
  rw [vσ, vσ, vSinσ_swap p hp1 hp2 lam, vCosσ_swap p lam]

/-- Swapping points and negating the iterate negates `sinα`. -/
lemma vSinα_swap (p : VParams) (hp1 : p.sinU1 ^ 2 + p.cosU1 ^ 2 = 1)
    (hp2 : p.sinU2 ^ 2 + p.cosU2 ^ 2 = 1) (lam : ℝ) :
    vSinα (vSwap p) (-lam) = -vSinα p lam := by
  have hnum : (vSwap p).cosU1 * (vSwap p).cosU2 * Real.sin (-lam) =
      -(p.cosU1 * p.cosU2 * Real.sin lam) := by
    simp only [vSwap, Real.sin_neg]
    ring
  rw [vSinα, vSinα, hnum, vSinσ_swap p hp1 hp2 lam, neg_div]

/-- Swapping points and negating the iterate preserves `cos2α`. -/
lemma vCos2α_swap (p : VParams) (hp1 : p.sinU1 ^ 2 + p.cosU1 ^ 2 = 1)
    (hp2 : p.sinU2 ^ 2 + p.cosU2 ^ 2 = 1) (lam : ℝ) :
    vCos2α (vSwap p) (-lam) = vCos2α p lam := by
  rw [vCos2α, vCos2α, vSinα_swap p hp1 hp2 lam]
  ring

/-- Swapping points and negating the iterate preserves the guarded midpoint
term `cos2σM`. -/
lemma vCos2σM_swap (p : VParams) (hp1 : p.sinU1 ^ 2 + p.cosU1 ^ 2 = 1)
    (hp2 : p.sinU2 ^ 2 + p.cosU2 ^ 2 = 1) (lam : ℝ) :
    vCos2σM (vSwap p) (-lam) = vCos2σM p lam := by
  rw [vCos2σM, vCos2σM, vCos2α_swap p hp1 hp2 lam, vCosσ_swap p lam]
  split_ifs with h
  · simp only [vSwap]
    ring
  · rfl

/-- Swapping points and negating the iterate preserves `u2`. -/
lemma vu2_swap (p : VParams) (hp1 : p.sinU1 ^ 2 + p.cosU1 ^ 2 = 1)
    (hp2 : p.sinU2 ^ 2 + p.cosU2 ^ 2 = 1) (lam : ℝ) :
    vu2 (vSwap p) (-lam) = vu2 p lam := by
  rw [vu2, vu2, vCos2α_swap p hp1 hp2 lam]

/-- Swapping points and negating the iterate preserves `A`. -/
lemma vA_swap (p : VParams) (hp1 : p.sinU1 ^ 2 + p.cosU1 ^ 2 = 1)
    (hp2 : p.sinU2 ^ 2 + p.cosU2 ^ 2 = 1) (lam : ℝ) :
    vA (vSwap p) (-lam) = vA p lam := by
  rw [vA, vA, vu2_swap p hp1 hp2 lam]

/-- Swapping points and negating the iterate preserves `B`. -/
lemma vB_swap (p : VParams) (hp1 : p.sinU1 ^ 2 + p.cosU1 ^ 2 = 1)
    (hp2 : p.sinU2 ^ 2 + p.cosU2 ^ 2 = 1) (lam : ℝ) :
    vB (vSwap p) (-lam) = vB p lam := by
  rw [vB, vB, vu2_swap p hp1 hp2 lam]

/-- Swapping points and negating the iterate preserves `Δσ`. -/
lemma vΔσ_swap (p : VParams) (hp1 : p.sinU1 ^ 2 + p.cosU1 ^ 2 = 1)
    (hp2 : p.sinU2 ^ 2 + p.cosU2 ^ 2 = 1) (lam : ℝ) :
    vΔσ (vSwap p) (-lam) = vΔσ p lam := by
  rw [vΔσ, vΔσ, vB_swap p hp1 hp2 lam, vSinσ_swap p hp1 hp2 lam,
    vCos2σM_swap p hp1 hp2 lam, vCosσ_swap p lam]

/-- Swapping points and negating the iterate preserves `C`. -/
lemma vC_swap (p : VParams) (hp1 : p.sinU1 ^ 2 + p.cosU1 ^ 2 = 1)
    (hp2 : p.sinU2 ^ 2 + p.cosU2 ^ 2 = 1) (lam : ℝ) :
    vC (vSwap p) (-lam) = vC p lam := by
  rw [vC, vC, vCos2α_swap p hp1 hp2 lam]

/-- Swapping points and negating the iterate negates the updated iterate. -/
lemma vNext_swap (p : VParams) (hp1 : p.sinU1 ^ 2 + p.cosU1 ^ 2 = 1)
    (hp2 : p.sinU2 ^ 2 + p.cosU2 ^ 2 = 1) (lam : ℝ) :
    vNext (vSwap p) (-lam) = -vNext p lam := by
  rw [vNext, vNext, vC_swap p hp1 hp2 lam, vSinα_swap p hp1 hp2 lam,
    vσ_swap p hp1 hp2 lam, vSinσ_swap p hp1 hp2 lam,
    vCos2σM_swap p hp1 hp2 lam, vCosσ_swap p lam]
  simp only [vSwap]
  ring

/-- Swapping points and negating the iterate preserves the computed
distance. -/
lemma vDist_swap (p : VParams) (hp1 : p.sinU1 ^ 2 + p.cosU1 ^ 2 = 1)
    (hp2 : p.sinU2 ^ 2 + p.cosU2 ^ 2 = 1) (lam : ℝ) :
    vDist (vSwap p) (-lam) = vDist p lam := by
  rw [vDist, vDist, vA_swap p hp1 hp2 lam, vσ_swap p hp1 hp2 lam,
    vΔσ_swap p hp1 hp2 lam]

/-- Swapping points and negating the iterate preserves the convergence
check. -/
lemma vConv_swap (p : VParams) (hp1 : p.sinU1 ^ 2 + p.cosU1 ^ 2 = 1)
    (hp2 : p.sinU2 ^ 2 + p.cosU2 ^ 2 = 1) (lam : ℝ) :
    vConv (vSwap p) (-lam) ↔ vConv p lam := by
  rw [vConv, vConv, vNext_swap p hp1 hp2 lam,
    show -vNext p lam - -lam = -(vNext p lam - lam) by ring, abs_neg]

/-- The whole iteration is invariant under swapping the points and negating
the starting iterate. -/
lemma vincentyLoop_swap (p : VParams) (hp1 : p.sinU1 ^ 2 + p.cosU1 ^ 2 = 1)
    (hp2 : p.sinU2 ^ 2 + p.cosU2 ^ 2 = 1) : ∀ (n : Nat) (lam : ℝ),
    vincentyLoop (vSwap p) n (-lam) = vincentyLoop p n lam := by
  intro n
  induction n with
  | zero => intro lam; rfl
  | succ n ih =>
    intro lam
    simp only [vincentyLoop, vSinσ_swap p hp1 hp2 lam, vConv_swap p hp1 hp2 lam,
      vDist_swap p hp1 hp2 lam, vNext_swap p hp1 hp2 lam, ih (vNext p lam)]

/-- Swapping the four input coordinates of `Geodesy::Vincenty` produces
exactly the swapped parameter record. -/
lemma vParamsOf_swap (lat1 lon1 lat2 lon2 : ℝ) :
    vParamsOf lat2 lon2 lat1 lon1 = vSwap (vParamsOf lat1 lon1 lat2 lon2) := by
  simp only [vParamsOf, vSwap]
  rw [show (lon1 - lon2) * toRad = -((lon2 - lon1) * toRad) by ring]

/-- C8: each of the three algorithms is symmetric in its two points: in
exact real arithmetic, distance(B, A) equals distance(A, B) exactly, for
every pair of coordinates and every unit. -/
theorem distance_symmetric (lat1 lon1 lat2 lon2 : ℝ) (u : Units) :
    Haversine lat2 lon2 lat1 lon1 u = Haversine lat1 lon1 lat2 lon2 u ∧
    SLC lat2 lon2 lat1 lon1 u = SLC lat1 lon1 lat2 lon2 u ∧
    Vincenty lat2 lon2 lat1 lon1 u = Vincenty lat1 lon1 lat2 lon2 u := by
  refine ⟨?_, ?_, ?_⟩
  · have h : Real.sin ((lat1 * toRad - lat2 * toRad) / 2) *
        Real.sin ((lat1 * toRad - lat2 * toRad) / 2) +
        Real.sin (((lon1 - lon2) / 2) * toRad) *
          (Real.sin (((lon1 - lon2) / 2) * toRad) * Real.cos (lat2 * toRad) *
            Real.cos (lat1 * toRad)) =
        Real.sin ((lat2 * toRad - lat1 * toRad) / 2) *
        Real.sin ((lat2 * toRad - lat1 * toRad) / 2) +
        Real.sin (((lon2 - lon1) / 2) * toRad) *
          (Real.sin (((lon2 - lon1) / 2) * toRad) * Real.cos (lat1 * toRad) *
            Real.cos (lat2 * toRad)) := by
      rw [show (lat1 * toRad - lat2 * toRad) / 2 = -((lat2 * toRad - lat1 * toRad) / 2) by ring,
        show ((lon1 - lon2) / 2) * toRad = -(((lon2 - lon1) / 2) * toRad) by ring,
        Real.sin_neg, Real.sin_neg]
      ring
    simp only [Haversine]
    rw [h]
  · have h : Real.sin (lat2 * toRad) * Real.sin (lat1 * toRad) +
        Real.cos (lat2 * toRad) * Real.cos (lat1 * toRad) *
          Real.cos ((lon2 - lon1) * toRad) =
        Real.sin (lat1 * toRad) * Real.sin (lat2 * toRad) +
        Real.cos (lat1 * toRad) * Real.cos (lat2 * toRad) *
          Real.cos ((lon1 - lon2) * toRad) := by
      rw [show (lon1 - lon2) * toRad = -((lon2 - lon1) * toRad) by ring, Real.cos_neg]
      ring
    simp only [SLC]
    rw [h]
  · have hp1 : (vParamsOf lat1 lon1 lat2 lon2).sinU1 ^ 2 +
        (vParamsOf lat1 lon1 lat2 lon2).cosU1 ^ 2 = 1 := by
      simp only [vParamsOf]
      exact Real.sin_sq_add_cos_sq _
    have hp2 : (vParamsOf lat1 lon1 lat2 lon2).sinU2 ^ 2 +
        (vParamsOf lat1 lon1 lat2 lon2).cosU2 ^ 2 = 1 := by
      simp only [vParamsOf]
      exact Real.sin_sq_add_cos_sq _
    simp only [Vincenty, vParamsOf_swap lat1 lon1 lat2 lon2,
      show (lon1 - lon2) * toRad = -((lon2 - lon1) * toRad) by ring,
      vincentyLoop_swap (vParamsOf lat1 lon1 lat2 lon2) hp1 hp2 100
        ((lon2 - lon1) * toRad)]

end Geodesy
